/-
  Verification development for the Smart_Eval repository.

  Shallow embedding of the answer-scoring pipeline and its helper modules:
    - src/evaluation_mode.py   (apply_evaluation_mode)
    - src/answer_grader.py     (parse_ai_response, grade_answers)
    - src/ocr_extraction.py    (extract_text_from_images)
    - src/diagram_detection.py (pdf_to_images_for_diagrams, detect_diagrams)
    - src/feedback_handler.py  (load_feedback, save_feedback)
    - login.py                 (hash_password, register_user, authenticate_user)
    - app.py                   (the evaluate branch of display_evaluation_page)

  Conventions of the embedding:
    * Python strings are modelled as `List Char` (`Txt`).
    * Python floats are modelled as rationals (ℚ); `round(x, 1)` is modelled
      by `pyround1` (round half to even at one decimal place, as Python's
      `round` ties to even).
    * Calls into external libraries (the Gemini API, `json.loads`,
      `hashlib.sha256`, poppler/pdf2image rasterisation, OpenCV contour
      extraction, the filesystem) are parameters of the embedded functions:
      each parameter stands for the value returned (or the exception raised,
      as `Except`/`Option`) by one specific external call.  A Python
      exception raised by an external call is an `Except.error` value; a
      Python function that cannot raise is embedded as a total Lean function.
-/
import Mathlib

/-- Python `str` values, as lists of characters. -/
abbrev Txt := List Char

/-- Coerce a Lean string literal to the `Txt` model. -/
def txt (s : String) : Txt := s.data

/-- Python `str.isspace` on the ASCII whitespace characters stripped by
`str.strip()`: space, tab, newline, carriage return, vertical tab, form feed. -/
def pyIsSpace (c : Char) : Bool :=
  c = ' ' || c = '\t' || c = '\n' || c = '\r' || c = Char.ofNat 11 || c = Char.ofNat 12

/-- Python `s.strip()`: remove leading and trailing whitespace. -/
def pyStrip (s : Txt) : Txt :=
  ((s.dropWhile pyIsSpace).reverse.dropWhile pyIsSpace).reverse

/-- Worker for `replaceAll`, structurally recursive on a fuel argument so
that it reduces inside the kernel; every recursive call consumes at least one
character, so `fuel = s.length` never runs out. -/
def replaceAllF (pat : Txt) : Nat → Txt → Txt
  | _, [] => []
  | 0, s => s
  | fuel + 1, c :: cs =>
    if pat ≠ [] && pat.isPrefixOf (c :: cs) then
      replaceAllF pat fuel ((c :: cs).drop pat.length)
    else
      c :: replaceAllF pat fuel cs

/-- Python `s.replace(pat, "")` for a non-empty pattern: delete every
non-overlapping occurrence of `pat`, scanning left to right.  (For an empty
pattern the function is the identity; the call sites in the source always pass
a non-empty pattern.) -/
def replaceAll (pat s : Txt) : Txt := replaceAllF pat s.length s

/-- Python `"\n".join(parts)`. -/
def joinNL (parts : List Txt) : Txt := List.intercalate ['\n'] parts

/-- Decimal rendering of a natural number, modelling Python `str(n)` inside
an f-string. -/
def natTxt (n : Nat) : Txt := (Nat.repr n).data

/-! ## src/evaluation_mode.py -/

/-- Round a rational to the nearest integer, ties to even — the behaviour of
Python's built-in `round` on a tie. -/
def pyroundInt (q : ℚ) : ℤ :=
  let f : ℤ := ⌊q⌋
  let frac : ℚ := q - f
  if frac < 1/2 then f
  else if 1/2 < frac then f + 1
  else if f % 2 = 0 then f else f + 1

/-- Python `round(x, 1)` over the rational model. -/
def pyround1 (q : ℚ) : ℚ := (pyroundInt (10 * q) : ℚ) / 10

/-- `apply_evaluation_mode(original_score, max_marks, mode)` from
src/evaluation_mode.py: guards `max_marks == 0`, otherwise adjusts the score
by ±5 according to the mode and the percentage, and rounds to one decimal. -/
def apply_evaluation_mode (original_score max_marks : ℚ) (mode : String) :
    ℚ × ℚ × String :=
  if max_marks = 0 then
    (original_score, original_score, mode)
  else
    let percentage := original_score / max_marks * 100
    let adjusted_score :=
      if mode = "Lenient" then
        if percentage < 35 then min (original_score + 5) max_marks
        else original_score
      else if mode = "Strict" then
        if percentage > 80 then max (original_score - 5) 0
        else original_score
      else original_score
    (pyround1 adjusted_score, pyround1 original_score, mode)

/-! ## src/answer_grader.py — parse_ai_response

The source extracts a fenced JSON block with
`re.search(r"```json\n({.*?})\n```", raw_text, re.DOTALL)`:
the leftmost match of the literal opener followed by the shortest body
(the `.*?` is non-greedy and, under DOTALL, may span newlines) followed by
the literal closer.  `json.loads` is an external stdlib call and is a
parameter `jsonLoads`; `none` models a raised `json.JSONDecodeError`. -/

/-- The literal text up to and including the opening brace of the capture
group: three backticks, `json`, a newline, a left brace. -/
def jsonOpen : Txt := txt "```json\n\x7b"

/-- The literal closer: a right brace, a newline, three backticks. -/
def jsonClose : Txt := txt "\x7d\n```"

/-- Scan for the first occurrence of `jsonClose` (the non-greedy `.*?`
stops at the earliest point where the closer matches); return the characters
before it and the characters after it. -/
def findBody : Txt → Option (Txt × Txt)
  | [] => none
  | c :: cs =>
    if jsonClose.isPrefixOf (c :: cs) then
      some ([], (c :: cs).drop jsonClose.length)
    else
      match findBody cs with
      | some (body, rest) => some (c :: body, rest)
      | none => none

/-- `re.search` for the block pattern: the leftmost position where the
opener matches and a closer follows; returns
(text before the match, group body between the braces, text after the match). -/
def findJsonBlock : Txt → Option (Txt × Txt × Txt)
  | [] => none
  | c :: cs =>
    if jsonOpen.isPrefixOf (c :: cs) then
      match findBody ((c :: cs).drop jsonOpen.length) with
      | some (body, rest) => some ([], body, rest)
      | none => (findJsonBlock cs).map (fun x => (c :: x.1, x.2.1, x.2.2))
    else
      (findJsonBlock cs).map (fun x => (c :: x.1, x.2.1, x.2.2))

/-- `json_match.group(0)`: the whole matched block. -/
def group0 (body : Txt) : Txt := jsonOpen ++ body ++ jsonClose

/-- `json_match.group(1)`: the braced body passed to `json.loads`. -/
def group1 (body : Txt) : Txt := txt "\x7b" ++ body ++ txt "\x7d"

/-- The dict `{"report": ..., "analytics": ...}` returned by
`parse_ai_response` and `grade_answers`; `analytics = none` models the empty
dict `{}`. -/
structure AIResponse (J : Type) where
  report : Txt
  analytics : Option J
deriving DecidableEq

/-- `parse_ai_response(raw_text)` from src/answer_grader.py. `jsonLoads`
stands for `json.loads`; `none` models a raised `JSONDecodeError`, caught by
the function, which then returns the raw text as the report. -/
def parse_ai_response {J : Type} (jsonLoads : Txt → Option J) (raw : Txt) :
    AIResponse J :=
  match findJsonBlock raw with
  | none => ⟨raw, none⟩
  | some (_pre, body, _post) =>
    match jsonLoads (group1 body) with
    | some j => ⟨pyStrip (replaceAll (group0 body) raw), some j⟩
    | none => ⟨raw, none⟩

/-! ## src/answer_grader.py — grade_answers -/

/-- The observable part of a Gemini `generate_content` response:
`parts` (empty models a blocked/empty response), `text`, and
`candidates[0].finish_reason` (`none` models an empty candidate list). -/
structure ModelResponse where
  parts : List Txt
  text : Txt
  finishReason : Option Txt
deriving DecidableEq

/-- `response.candidates[0].finish_reason if response.candidates else "Unknown"`. -/
def reasonTxt (r : ModelResponse) : Txt := r.finishReason.getD (txt "Unknown")

/-- The arguments of `grade_answers` that flow into the grading prompt. -/
structure GradeInputs where
  question_text : Txt
  key_text : Txt
  student_text : Txt
  rules : Txt
  mode : String
  diagram_count : Nat
deriving DecidableEq

/-- `grade_answers(...)` from src/answer_grader.py.  `apiKeyOk` is the result
of `initialize_gemini` (false for a missing key or a `genai.configure`
failure); `callModel` stands for `GRADING_MODEL.generate_content(prompt)`,
receiving the inputs the prompt is built from, with `Except.error e` modelling
a raised exception whose `str` is `e`.  A blocked response (no parts) raises
`Exception(f"Grading failed. Reason: {reason}")`, which the function's own
`except` turns into the error report. -/
def grade_answers {J : Type} (jsonLoads : Txt → Option J) (apiKeyOk : Bool)
    (callModel : GradeInputs → Except Txt ModelResponse) (inp : GradeInputs) :
    AIResponse J :=
  if !apiKeyOk then ⟨txt "API Key configuration failed.", none⟩
  else
    match callModel inp with
    | .error e => ⟨txt "Error (Grading): " ++ e, none⟩
    | .ok r =>
      if r.parts ≠ [] then parse_ai_response jsonLoads r.text
      else ⟨txt "Error (Grading): " ++ (txt "Grading failed. Reason: " ++ reasonTxt r),
            none⟩

/-! ## src/ocr_extraction.py — extract_text_from_images -/

/-- The text contributed by page `i` (0-based) of the OCR loop: the response
text when the call succeeds with parts, a bracketed `OCR Failed` placeholder
for a blocked response, a bracketed `OCR Error` placeholder for a raised
exception.  Page numbers are rendered 1-based, as in the source f-strings. -/
def ocr_page_result (call : Except Txt ModelResponse) (i : Nat) : Txt :=
  match call with
  | .ok r =>
    if r.parts ≠ [] then r.text
    else txt "[Page " ++ natTxt (i + 1) ++ txt " OCR Failed: " ++ reasonTxt r ++ txt "]"
  | .error e => txt "[Page " ++ natTxt (i + 1) ++ txt " OCR Error: " ++ e ++ txt "]"

/-- `extract_text_from_images(images_base64, api_key)` from
src/ocr_extraction.py.  `ocrCall i b` stands for the per-page
`OCR_MODEL.generate_content(parts)` call on page index `i` with base64
payload `b`. -/
def extract_text_from_images (apiKeyOk : Bool)
    (ocrCall : Nat → Txt → Except Txt ModelResponse) (images_base64 : List Txt) :
    Txt :=
  if !apiKeyOk then txt "API Key configuration failed."
  else if images_base64 = [] then []
  else joinNL (images_base64.enum.map (fun p => ocr_page_result (ocrCall p.1 p.2) p.1))

/-! ## src/diagram_detection.py -/

/-- A rendered page, abstracted by the outcome of the fixed OpenCV
preprocessing: for a binarisation threshold, the areas of the external
contours found after grayscale conversion and `THRESH_BINARY_INV`;
`none` models `cv2.imread` returning `None` (the page is skipped). -/
structure PageImg where
  contourAreas : Nat → Option (List ℚ)

/-- A PDF, abstracted by its rasterisation: for a dpi value, the list of
rendered pages (`fitz` page loop of `pdf_to_images_for_diagrams`). -/
structure PdfDoc where
  render : Nat → List PageImg

/-- The dpi default of `pdf_to_images_for_diagrams` (the call site in
`detect_diagrams` passes no dpi, so the default 200 is used). -/
def DIAGRAM_DPI : Nat := 200

/-- The intensity cutoff of `cv2.threshold(gray, 200, 255, THRESH_BINARY_INV)`. -/
def DIAGRAM_THRESHOLD : Nat := 200

/-- `pdf_to_images_for_diagrams(pdf_path, output_dir, dpi)`: rasterise every
page at the given dpi. -/
def pdf_to_images_for_diagrams (pdf : PdfDoc) (dpi : Nat) : List PageImg :=
  pdf.render dpi

/-- `detect_diagrams(pdf_path, output_dir)` from src/diagram_detection.py:
render at the default 200 dpi, threshold at 200, and count every external
contour whose area is strictly between 10000 and 500000, skipping pages whose
image failed to load. -/
def detect_diagrams (pdf : PdfDoc) : Nat :=
  (pdf_to_images_for_diagrams pdf DIAGRAM_DPI).foldl
    (fun total img =>
      match img.contourAreas DIAGRAM_THRESHOLD with
      | none => total
      | some areas =>
        areas.foldl (fun t area => if 10000 < area ∧ area < 500000 then t + 1 else t)
          total)
    0

/-! ## login.py -/

/-- The per-user record stored in data/users.json by `register_user`. -/
structure UserRecord where
  password : String
  email : String
  role : String
  created_at : String
  evaluations : List String
deriving DecidableEq

/-- `hash_password(password)` from login.py; `sha256hex` stands for the
stdlib call `hashlib.sha256(password.encode()).hexdigest()`. -/
def hash_password (sha256hex : String → String) (password : String) : String :=
  sha256hex password

/-- The users file, a JSON object modelled as an insertion-ordered
association list with unique keys. -/
abbrev Users := List (String × UserRecord)

/-- `register_user(username, password, email, role)` from login.py, with the
loaded users as explicit state; `now` stands for
`datetime.now().isoformat()`.  Returns the saved users and the
`(success, message)` pair. -/
def register_user (sha256hex : String → String) (users : Users)
    (username password email role now : String) : Users × Bool × String :=
  if (users.lookup username).isSome then
    (users, false, "Username already exists")
  else
    (users ++ [(username,
       { password := hash_password sha256hex password
         email := email
         role := role
         created_at := now
         evaluations := [] })],
     true, "Registration successful")

/-- `authenticate_user(username, password)` from login.py, with the loaded
users as explicit state.  The second component models the heterogeneous
Python return value: `Except.ok` carries `users[username]`,
`Except.error` the message string. -/
def authenticate_user (sha256hex : String → String) (users : Users)
    (username password : String) : Bool × Except String UserRecord :=
  match users.lookup username with
  | none => (false, Except.error "User not found")
  | some u =>
    if u.password = hash_password sha256hex password then (true, Except.ok u)
    else (false, Except.error "Invalid password")

/-! ## src/feedback_handler.py -/

/-- One entry of data/feedback.json as built by `save_feedback`. -/
structure FeedbackEntry where
  id : Txt
  usn : Txt
  role : Txt
  rating : Int
  comment : Txt
  subject : Txt
  timestamp : Txt
deriving DecidableEq

/-- The state of data/feedback.json: `none` when the file does not exist,
`some (.error ())` when its contents fail to decode (`JSONDecodeError`),
`some (.ok l)` when it holds the list `l`. -/
abbrev FeedbackFile := Option (Except Unit (List FeedbackEntry))

/-- `load_feedback()` from src/feedback_handler.py: missing file and decode
failure both yield the empty list. -/
def load_feedback : FeedbackFile → List FeedbackEntry
  | none => []
  | some (.error _) => []
  | some (.ok l) => l

/-- The `new_entry` dict built by `save_feedback`; `now` stands for
`datetime.now().isoformat()` (the source calls it twice, for the id and the
timestamp; both stand for the wall clock at the save). -/
def mk_feedback_entry (usn role : Txt) (rating : Int) (comment subject now : Txt) :
    FeedbackEntry :=
  { id := usn ++ txt "_" ++ now
    usn := usn
    role := role
    rating := rating
    comment := comment
    subject := subject
    timestamp := now }

/-- `save_feedback(usn, role, rating, comment, subject)` from
src/feedback_handler.py, with the file state explicit.  `writeOk` stands for
the `open`/`json.dump` call succeeding; on failure the source prints and
returns False.  Returns the success flag and, on success, the list written
to the file. -/
def save_feedback (writeOk : Bool) (file : FeedbackFile) (usn role : Txt)
    (rating : Int) (comment subject now : Txt) :
    Bool × Option (List FeedbackEntry) :=
  let all_feedback := load_feedback file
  let new_entry := mk_feedback_entry usn role rating comment subject now
  let updated := all_feedback ++ [new_entry]
  if writeOk then (true, some updated) else (false, none)

/-! ## app.py — the evaluate branch of display_evaluation_page

The body of the `if evaluate_button:` success branch (after the four input
validations), lines 531–600 of app.py.  `save_uploaded_file` catches its own
exceptions and returns the path or `None`; `convert_pdf_to_images` may raise
(the outer `try` turns that into the error display); the embedded
`extract_text_from_images`, `detect_diagrams` and `grade_answers` are total;
`save_evaluation_to_history` catches internally and its return value is
ignored by the caller. -/

/-- The externally visible steps of one evaluation run.  Document index 0 is
the question paper, 1 the answer key, 2 the student sheet. -/
inductive EvStep
  | save (i : Fin 3)
  | convert (i : Fin 3)
  | ocr (i : Fin 3)
  | detect
  | grade
  | store
deriving DecidableEq

/-- The external effects one evaluation run interacts with. -/
structure EvalEffects (J : Type) where
  jsonLoads : Txt → Option J
  apiKeyOk : Bool
  saveFile : Fin 3 → Option Txt
  convert : Fin 3 → Except Txt (List Txt)
  ocrCall : Fin 3 → Nat → Txt → Except Txt ModelResponse
  studentPdf : PdfDoc
  gradeCall : GradeInputs → Except Txt ModelResponse

/-- The `save_data` dict passed to `save_evaluation_to_history`
(the `timestamp` field, a wall-clock read, is not modelled). -/
structure SaveData (J : Type) where
  usn : Txt
  subject : Txt
  evaluated_by : Txt
  diagram_count : Nat
  evaluation_report : Txt
  analytics_data : Option J
deriving DecidableEq

/-- How the evaluate branch ends: the early `return` after a failed file
save, the outer `except` branch, or the success display. -/
inductive EvalOutcome (J : Type)
  | saveFailed
  | exception (msg : Txt)
  | success (saved : SaveData J)
deriving DecidableEq

/-- The evaluate branch of `display_evaluation_page`, returning its outcome
together with the ordered trace of steps it performed. -/
def run_evaluation {J : Type} (E : EvalEffects J)
    (usn subject : Txt) (mode : String) (rules username : Txt) :
    EvalOutcome J × List EvStep :=
  let p0 := E.saveFile 0
  let p1 := E.saveFile 1
  let p2 := E.saveFile 2
  let tr0 := [EvStep.save 0, EvStep.save 1, EvStep.save 2]
  if p0.isNone || p1.isNone || p2.isNone then (.saveFailed, tr0)
  else
    match E.convert 0 with
    | .error e => (.exception e, tr0 ++ [.convert 0])
    | .ok q_images =>
      match E.convert 1 with
      | .error e => (.exception e, tr0 ++ [.convert 0, .convert 1])
      | .ok k_images =>
        match E.convert 2 with
        | .error e => (.exception e, tr0 ++ [.convert 0, .convert 1, .convert 2])
        | .ok s_images =>
          let tr1 := tr0 ++ [.convert 0, .convert 1, .convert 2]
          let question_text := extract_text_from_images E.apiKeyOk (E.ocrCall 0) q_images
          let key_text := extract_text_from_images E.apiKeyOk (E.ocrCall 1) k_images
          let student_text := extract_text_from_images E.apiKeyOk (E.ocrCall 2) s_images
          let tr2 := tr1 ++ [.ocr 0, .ocr 1, .ocr 2]
          let diagram_count := detect_diagrams E.studentPdf
          let tr3 := tr2 ++ [.detect]
          let inp : GradeInputs :=
            ⟨question_text, key_text, student_text, rules, mode, diagram_count⟩
          let result := grade_answers E.jsonLoads E.apiKeyOk E.gradeCall inp
          let tr4 := tr3 ++ [.grade]
          let save_data : SaveData J :=
            ⟨usn, subject, username, diagram_count, result.report, result.analytics⟩
          (.success save_data, tr4 ++ [.store])

/-! ## Spec-side characterisations and concrete instances -/

/-- Spec-side count for one rendered page: the number of external contour
areas strictly between 10000 and 500000, zero for an unreadable page.  Stated
from the spec's words for comparison with `detect_diagrams`. -/
def pageDiagramCount (img : PageImg) : Nat :=
  match img.contourAreas DIAGRAM_THRESHOLD with
  | none => 0
  | some areas => (areas.filter (fun a => decide (10000 < a ∧ a < 500000))).length

/-- A decoder accepting exactly the empty JSON object `"{}"` — the behaviour
of `json.loads` restricted to the inputs the concrete instances use. -/
def emptyObjLoads : Txt → Option Unit :=
  fun s => if s = group1 [] then some () else none

/-- A raw AI text holding the same fenced empty-JSON block twice with a
letter `A` between the copies. -/
def twoBlocksRaw : Txt := group0 [] ++ txt "A" ++ group0 []

/-- Fixed grading inputs for closed instances. -/
def inp0 : GradeInputs := ⟨[], [], [], [], "Moderate", 0⟩

/-- A stand-in for `hashlib.sha256(...).hexdigest()` in closed instances. -/
def toySha (s : String) : String := s ++ "#"

/-- One registered user record, hashed with `toySha`. -/
def aliceRec : UserRecord :=
  { password := toySha "pw", email := "a@b.c", role := "teacher",
    created_at := "t0", evaluations := [] }

/-- A users file holding exactly `alice`. -/
def toyUsers : Users := [("alice", aliceRec)]

/-- Effects for the closed sequencing instance: every file saves, every PDF
is empty, every model call fails (the pipeline still runs to completion
because the OCR and grading layers absorb failures). -/
def seqEffects : EvalEffects Unit :=
  { jsonLoads := fun _ => none
    apiKeyOk := true
    saveFile := fun _ => some (txt "data/tmp.pdf")
    convert := fun _ => Except.ok []
    ocrCall := fun _ _ _ => Except.error (txt "e")
    studentPdf := ⟨fun _ => []⟩
    gradeCall := fun _ => Except.error (txt "g") }

/-- A decoder standing for `json.loads` in a run where the grading model
returns an analytics object whose awarded total is 10; the abstract analytics
value is that score. -/
def cexJsonLoads : Txt → Option ℚ :=
  fun s => if s = group1 [] then some 10 else none

/-- Effects for a complete evaluation run in which the grading model answers
with one part whose text is a single fenced empty-JSON block, decoded as an
awarded score of 10; mode adjustment would bump that score. -/
def cexEffects : EvalEffects ℚ :=
  { jsonLoads := cexJsonLoads
    apiKeyOk := true
    saveFile := fun _ => some (txt "data/tmp.pdf")
    convert := fun _ => Except.ok []
    ocrCall := fun _ _ _ => Except.error (txt "e")
    studentPdf := ⟨fun _ => []⟩
    gradeCall := fun _ => Except.ok ⟨[txt "part"], group0 [], none⟩ }

/-! # Theorems -/

/-- A list prefix equals the corresponding take, so the whole list splits. -/
theorem eq_append_drop_of_isPrefixOf {p s : Txt} (h : p.isPrefixOf s) :
    s = p ++ s.drop p.length := by
  have h' : p <+: s := List.isPrefixOf_iff_prefix.mp h
  obtain ⟨t, rfl⟩ := h'
  simp

/-- Soundness of the body scan: the input decomposes as body ++ closer ++ rest. -/
theorem findBody_sound :
    ∀ s body rest, findBody s = some (body, rest) →
      s = body ++ jsonClose ++ rest := by
  intro s
  induction s with
  | nil => intro body rest h; simp [findBody] at h
  | cons c cs ih =>
    intro body rest h
    by_cases hp : jsonClose.isPrefixOf (c :: cs)
    · rw [findBody, if_pos hp] at h
      simp only [Option.some.injEq, Prod.mk.injEq] at h
      obtain ⟨hb, hr⟩ := h
      subst hb; subst hr
      simpa using eq_append_drop_of_isPrefixOf hp
    · rw [findBody, if_neg hp] at h
      cases hfb : findBody cs with
      | none => rw [hfb] at h; exact absurd h (by simp)
      | some p =>
        rw [hfb] at h
        obtain ⟨body', rest'⟩ := p
        simp at h
        obtain ⟨hb, hr⟩ := h
        subst hb; subst hr
        simpa using congrArg (c :: ·) (ih body' rest' hfb)

/-- Soundness of the block search: a match decomposes the input as
prefix ++ whole-matched-block ++ suffix. -/
theorem findJsonBlock_sound :
    ∀ s pre body post, findJsonBlock s = some (pre, body, post) →
      s = pre ++ group0 body ++ post := by
  intro s
  induction s with
  | nil => intro pre body post h; simp [findJsonBlock] at h
  | cons c cs ih =>
    intro pre body post h
    by_cases hp : jsonOpen.isPrefixOf (c :: cs)
    · rw [findJsonBlock, if_pos hp] at h
      cases hfb : findBody ((c :: cs).drop jsonOpen.length) with
      | some p =>
        rw [hfb] at h
        obtain ⟨body', rest'⟩ := p
        simp only [Option.some.injEq, Prod.mk.injEq] at h
        obtain ⟨h1, h2, h3⟩ := h
        subst h1; subst h2; subst h3
        have hs := eq_append_drop_of_isPrefixOf hp
        have hb := findBody_sound _ _ _ hfb
        rw [hb] at hs
        simpa [group0, List.append_assoc] using hs
      | none =>
        rw [hfb] at h
        cases hj : findJsonBlock cs with
        | none => rw [hj] at h; simp at h
        | some q =>
          rw [hj] at h
          obtain ⟨pre', body', post'⟩ := q
          simp only [Option.map_some', Option.some.injEq, Prod.mk.injEq] at h
          obtain ⟨h1, h2, h3⟩ := h
          subst h1; subst h2; subst h3
          simpa using congrArg (c :: ·) (ih pre' body' post' hj)
    · rw [findJsonBlock, if_neg hp] at h
      cases hj : findJsonBlock cs with
      | none => rw [hj] at h; simp at h
      | some q =>
        rw [hj] at h
        obtain ⟨pre', body', post'⟩ := q
        simp only [Option.map_some', Option.some.injEq, Prod.mk.injEq] at h
        obtain ⟨h1, h2, h3⟩ := h
        subst h1; subst h2; subst h3
        simpa using congrArg (c :: ·) (ih pre' body' post' hj)

/-- C9: when `max_marks` is 0, `apply_evaluation_mode` performs no division
and returns `(original_score, original_score, mode)` with the score exactly
unchanged and not rounded, for every score and mode. -/
theorem apply_evaluation_mode_zero_max (s : ℚ) (mode : String) :
    apply_evaluation_mode s 0 mode = (s, s, mode) := by
  simp [apply_evaluation_mode]

/-- C2: for every `original_score`, every non-zero `max_marks` and every mode
string, `apply_evaluation_mode` returns
`(adjusted, round(original_score, 1), mode)` where `adjusted` follows exactly
three branches: Lenient with percentage below 35 bumps by 5 capped at
`max_marks`; Strict with percentage above 80 drops by 5 floored at 0; every
other case (Moderate included) rounds the score unchanged. -/
theorem apply_evaluation_mode_branches (s m : ℚ) (mode : String) (hm : m ≠ 0) :
    apply_evaluation_mode s m mode =
      ((if mode = "Lenient" ∧ s / m * 100 < 35 then pyround1 (min (s + 5) m)
        else if mode = "Strict" ∧ s / m * 100 > 80 then pyround1 (max (s - 5) 0)
        else pyround1 s),
       pyround1 s, mode) := by
  unfold apply_evaluation_mode
  rw [if_neg hm]
  by_cases h1 : mode = "Lenient"
  · subst h1
    by_cases h2 : s / m * 100 < 35 <;> simp [h2]
  · by_cases h3 : mode = "Strict"
    · subst h3
      by_cases h4 : s / m * 100 > 80 <;> simp [h4]
    · simp [h1, h3]

/-- Witness for C2 at `original_score = 3`, `max_marks = 10`, mode Lenient:
the percentage 30 is below 35, so the score is bumped to 8. -/
theorem apply_evaluation_mode_branches_witness :
    apply_evaluation_mode 3 10 "Lenient" = (8, 3, "Lenient") := by
  have h := apply_evaluation_mode_branches 3 10 "Lenient" (by norm_num)
  rw [h]
  norm_num [pyround1, pyroundInt]

/-- C3 (amended): `parse_ai_response` always returns exactly the keys
`report` and `analytics`.  If no fenced `json` block matches the regex, the
analytics are the empty dict and the report is the raw text unchanged.  If
the leftmost-shortest block matches — so the raw text decomposes as
`pre ++ group0 body ++ post` — and its braced body decodes, the analytics are
the decoded object and the report is the raw text with every occurrence of
the matched block string deleted (Python `str.replace` removes all
occurrences, not only the matched one) and surrounding whitespace stripped;
if decoding fails, the analytics are the empty dict and the report is the raw
text unchanged. -/
theorem parse_ai_response_spec {J : Type} (jsonLoads : Txt → Option J)
    (raw : Txt) :
    (findJsonBlock raw = none → parse_ai_response jsonLoads raw = ⟨raw, none⟩) ∧
    (∀ pre body post, findJsonBlock raw = some (pre, body, post) →
      raw = pre ++ group0 body ++ post ∧
      (∀ j, jsonLoads (group1 body) = some j →
        parse_ai_response jsonLoads raw =
          ⟨pyStrip (replaceAll (group0 body) raw), some j⟩) ∧
      (jsonLoads (group1 body) = none →
        parse_ai_response jsonLoads raw = ⟨raw, none⟩)) := by
  constructor
  · intro h
    simp [parse_ai_response, h]
  · intro pre body post h
    refine ⟨findJsonBlock_sound _ _ _ _ h, ?_, ?_⟩
    · intro j hj
      simp [parse_ai_response, h, hj]
    · intro hj
      simp [parse_ai_response, h, hj]

/-- Witness for C3 at a text holding no fenced block: the report is the
input unchanged and the analytics are empty. -/
theorem parse_ai_response_spec_witness :
    parse_ai_response emptyObjLoads (txt "hello") = ⟨txt "hello", none⟩ :=
  (parse_ai_response_spec emptyObjLoads (txt "hello")).1 (by decide)

/-- C3 counterexample: on an input holding the same fenced block twice with
an `A` between the copies, the code's report is just `"A"` — `str.replace`
deletes *both* occurrences of the matched block string — whereas removing
only the matched block (as the claim states) would leave the second copy in
the report. -/
theorem parse_ai_response_counterexample :
    (parse_ai_response emptyObjLoads twoBlocksRaw).report = txt "A" ∧
    findJsonBlock twoBlocksRaw = some ([], [], txt "A" ++ group0 []) ∧
    pyStrip ([] ++ (txt "A" ++ group0 [])) ≠ txt "A" := by
  refine ⟨by decide, by decide, by decide⟩

/-- C4: `grade_answers` surfaces every grading failure as a returned dict
rather than a raised exception (the embedded function is total; every raise
in the source is caught and becomes a return value): a missing or failed API
key yields the configuration-failure report; a raised grading exception `e`
yields the report `"Error (Grading): " ++ e`; a blocked response (no parts)
raises `Grading failed. Reason: ...` internally and yields the corresponding
`Error (Grading)` report; in each case the analytics are the empty dict. -/
theorem grade_answers_error_handling {J : Type} (jsonLoads : Txt → Option J)
    (apiKeyOk : Bool) (callModel : GradeInputs → Except Txt ModelResponse)
    (inp : GradeInputs) :
    (apiKeyOk = false →
      grade_answers jsonLoads apiKeyOk callModel inp =
        ⟨txt "API Key configuration failed.", none⟩) ∧
    (∀ e, apiKeyOk = true → callModel inp = .error e →
      grade_answers jsonLoads apiKeyOk callModel inp =
        ⟨txt "Error (Grading): " ++ e, none⟩) ∧
    (∀ r, apiKeyOk = true → callModel inp = .ok r → r.parts = [] →
      grade_answers jsonLoads apiKeyOk callModel inp =
        ⟨txt "Error (Grading): " ++ (txt "Grading failed. Reason: " ++ reasonTxt r),
         none⟩) := by
  refine ⟨?_, ?_, ?_⟩
  · intro h
    simp [grade_answers, h]
  · intro e hk hc
    simp [grade_answers, hk, hc]
  · intro r hk hc hp
    simp [grade_answers, hk, hc, hp]

/-- Witness for C4: with a failed key configuration the result is the
configuration-failure dict; with a configured key and a raised exception the
result is the error-report dict. -/
theorem grade_answers_error_handling_witness :
    grade_answers emptyObjLoads false (fun _ => Except.error (txt "boom")) inp0 =
      ⟨txt "API Key configuration failed.", none⟩ ∧
    grade_answers emptyObjLoads true (fun _ => Except.error (txt "boom")) inp0 =
      ⟨txt "Error (Grading): " ++ txt "boom", none⟩ := by
  constructor
  · exact (grade_answers_error_handling emptyObjLoads false
      (fun _ => Except.error (txt "boom")) inp0).1 rfl
  · exact (grade_answers_error_handling emptyObjLoads true
      (fun _ => Except.error (txt "boom")) inp0).2.1 (txt "boom") rfl rfl

/-- C8: `extract_text_from_images` is total — the embedding returns a text
for every input.  With a configured key it returns the empty string on the
empty list; otherwise it joins the per-page results with newlines, where a
page whose OCR call raised `e` contributes `[Page i OCR Error: e]` and a page
whose response was blocked contributes `[Page i OCR Failed: reason]`
(1-based page numbers), instead of aborting. -/
theorem extract_text_from_images_spec
    (ocrCall : Nat → Txt → Except Txt ModelResponse) (images : List Txt) :
    (extract_text_from_images true ocrCall [] = []) ∧
    (images ≠ [] →
      extract_text_from_images true ocrCall images =
        joinNL (images.enum.map (fun p => ocr_page_result (ocrCall p.1 p.2) p.1))) ∧
    (∀ i b e, ocrCall i b = .error e →
      ocr_page_result (ocrCall i b) i =
        txt "[Page " ++ natTxt (i + 1) ++ txt " OCR Error: " ++ e ++ txt "]") ∧
    (∀ i b r, ocrCall i b = .ok r → r.parts = [] →
      ocr_page_result (ocrCall i b) i =
        txt "[Page " ++ natTxt (i + 1) ++ txt " OCR Failed: " ++ reasonTxt r ++ txt "]") := by
  refine ⟨?_, ?_, ?_, ?_⟩
  · simp [extract_text_from_images]
  · intro h
    simp [extract_text_from_images, h]
  · intro i b e hc
    simp [ocr_page_result, hc]
  · intro i b r hc hp
    simp [ocr_page_result, hc, hp]

/-- Witness for C8: a one-page list whose OCR call raises yields the inlined
placeholder for page 1. -/
theorem extract_text_from_images_spec_witness :
    extract_text_from_images true (fun _ _ => Except.error (txt "down")) [txt "img"] =
      txt "[Page 1 OCR Error: down]" := by
  have h := (extract_text_from_images_spec (fun _ _ => Except.error (txt "down"))
    [txt "img"]).2.1 (by simp)
  rw [h]
  decide

/-- Counting loop over one page's contour areas, as a filter length. -/
theorem area_foldl_count (l : List ℚ) (init : Nat) :
    l.foldl (fun t area => if 10000 < area ∧ area < 500000 then t + 1 else t) init =
      init + (l.filter (fun a => decide (10000 < a ∧ a < 500000))).length := by
  induction l generalizing init with
  | nil => simp
  | cons a l ih =>
    by_cases h : 10000 < a ∧ a < 500000
    · simp [h, ih]
      omega
    · simp [h, ih]

/-- C5: `detect_diagrams` returns the total, summed over all pages rendered
at the default 200 dpi, of external contours (extracted after grayscale and
inverse-binary thresholding at intensity 200) whose area lies strictly
between 10000 and 500000; pages whose image failed to load count zero. -/
theorem detect_diagrams_spec (pdf : PdfDoc) :
    detect_diagrams pdf = ((pdf.render DIAGRAM_DPI).map pageDiagramCount).sum ∧
    DIAGRAM_DPI = 200 ∧ DIAGRAM_THRESHOLD = 200 := by
  refine ⟨?_, rfl, rfl⟩
  unfold detect_diagrams pdf_to_images_for_diagrams
  suffices h : ∀ (l : List PageImg) (init : Nat),
      l.foldl
        (fun total img =>
          match img.contourAreas DIAGRAM_THRESHOLD with
          | none => total
          | some areas =>
            areas.foldl
              (fun t area => if 10000 < area ∧ area < 500000 then t + 1 else t)
              total)
        init = init + (l.map pageDiagramCount).sum by
    simpa using h (pdf.render DIAGRAM_DPI) 0
  intro l
  induction l with
  | nil => simp
  | cons p l ih =>
    intro init
    simp only [List.foldl_cons, List.map_cons, List.sum_cons]
    cases hc : p.contourAreas DIAGRAM_THRESHOLD with
    | none =>
      simp only [hc]
      rw [ih]
      simp [pageDiagramCount, hc]
    | some areas =>
      simp only [hc]
      rw [area_foldl_count, ih]
      simp [pageDiagramCount, hc, Nat.add_assoc]

/-- C6: passwords are stored and checked only as digests.  Registering a
fresh username appends a record whose `password` field is the SHA-256 hex
digest of the password (never the plaintext); for a username present in the
users file, authentication succeeds exactly when the stored digest equals the
digest of the supplied password; for an absent username it fails with
`"User not found"`. -/
theorem login_password_handling (sha256hex : String → String) (users : Users)
    (username password email role now : String) :
    ((users.lookup username).isSome = false →
      (register_user sha256hex users username password email role now).1 =
        users ++ [(username,
          { password := sha256hex password, email := email, role := role,
            created_at := now, evaluations := [] })]) ∧
    (∀ u, users.lookup username = some u →
      ((authenticate_user sha256hex users username password).1 = true ↔
        u.password = sha256hex password)) ∧
    (users.lookup username = none →
      authenticate_user sha256hex users username password =
        (false, Except.error "User not found")) := by
  refine ⟨?_, ?_, ?_⟩
  · intro h
    simp [register_user, h, hash_password]
  · intro u hu
    by_cases hp : u.password = sha256hex password <;>
      simp [authenticate_user, hu, hash_password, hp]
  · intro h
    simp [authenticate_user, h]

/-- Witness for C6: `alice` (stored digest of `"pw"`) authenticates with
`"pw"` and not with `"wrong"`, and the unknown `bob` gets `User not found`. -/
theorem login_password_handling_witness :
    (authenticate_user toySha toyUsers "alice" "pw").1 = true ∧
    (authenticate_user toySha toyUsers "alice" "wrong").1 ≠ true ∧
    authenticate_user toySha toyUsers "bob" "pw" =
      (false, Except.error "User not found") := by
  refine ⟨?_, ?_, ?_⟩
  · exact ((login_password_handling toySha toyUsers "alice" "pw" "" "" "").2.1
      aliceRec (by decide)).mpr (by decide)
  · intro hcontra
    have h := ((login_password_handling toySha toyUsers "alice" "wrong" "" "" "").2.1
      aliceRec (by decide)).mp hcontra
    exact absurd h (by decide)
  · exact (login_password_handling toySha toyUsers "bob" "pw" "" "" "").2.2 (by decide)

/-- C10: a successful `save_feedback` writes the previously loaded list
unchanged and in order, with exactly one new entry appended at the end
carrying the given usn, role, rating, comment and subject, and a subsequent
`load_feedback` of the written file returns old ++ [new]; a failed write
returns `False`. -/
theorem save_feedback_append_only (file : FeedbackFile) (usn role : Txt)
    (rating : Int) (comment subject now : Txt) :
    save_feedback true file usn role rating comment subject now =
      (true, some (load_feedback file ++
        [mk_feedback_entry usn role rating comment subject now])) ∧
    load_feedback (some (Except.ok (load_feedback file ++
        [mk_feedback_entry usn role rating comment subject now]))) =
      load_feedback file ++ [mk_feedback_entry usn role rating comment subject now] ∧
    (mk_feedback_entry usn role rating comment subject now).usn = usn ∧
    (mk_feedback_entry usn role rating comment subject now).role = role ∧
    (mk_feedback_entry usn role rating comment subject now).rating = rating ∧
    (mk_feedback_entry usn role rating comment subject now).comment = comment ∧
    (mk_feedback_entry usn role rating comment subject now).subject = subject ∧
    save_feedback false file usn role rating comment subject now = (false, none) := by
  exact ⟨rfl, rfl, rfl, rfl, rfl, rfl, rfl, rfl⟩

/-- C7: on a run where all three uploads save and all three conversions
succeed, the evaluate branch performs exactly, in order: save the three
PDFs, convert each saved PDF to images, run OCR on each image list, count
diagrams on the student sheet, invoke the grading model (whose raw answer is
string-parsed into report and analytics inside `grade_answers`), and store
the result — no step skipped or reordered, and each step's output feeds the
next (the OCR texts come from the converted images, the grading inputs from
the OCR texts and the diagram count, the stored record from the parsed
grading result). -/
theorem run_evaluation_sequential {J : Type} (E : EvalEffects J)
    (usn subject : Txt) (mode : String) (rules username : Txt)
    (path0 path1 path2 : Txt) (q_images k_images s_images : List Txt)
    (hp0 : E.saveFile 0 = some path0) (hp1 : E.saveFile 1 = some path1)
    (hp2 : E.saveFile 2 = some path2)
    (hc0 : E.convert 0 = .ok q_images) (hc1 : E.convert 1 = .ok k_images)
    (hc2 : E.convert 2 = .ok s_images) :
    run_evaluation E usn subject mode rules username =
      (EvalOutcome.success
        { usn := usn, subject := subject, evaluated_by := username,
          diagram_count := detect_diagrams E.studentPdf,
          evaluation_report :=
            (grade_answers E.jsonLoads E.apiKeyOk E.gradeCall
              { question_text := extract_text_from_images E.apiKeyOk (E.ocrCall 0) q_images,
                key_text := extract_text_from_images E.apiKeyOk (E.ocrCall 1) k_images,
                student_text := extract_text_from_images E.apiKeyOk (E.ocrCall 2) s_images,
                rules := rules, mode := mode,
                diagram_count := detect_diagrams E.studentPdf }).report,
          analytics_data :=
            (grade_answers E.jsonLoads E.apiKeyOk E.gradeCall
              { question_text := extract_text_from_images E.apiKeyOk (E.ocrCall 0) q_images,
                key_text := extract_text_from_images E.apiKeyOk (E.ocrCall 1) k_images,
                student_text := extract_text_from_images E.apiKeyOk (E.ocrCall 2) s_images,
                rules := rules, mode := mode,
                diagram_count := detect_diagrams E.studentPdf }).analytics },
       [EvStep.save 0, EvStep.save 1, EvStep.save 2,
        EvStep.convert 0, EvStep.convert 1, EvStep.convert 2,
        EvStep.ocr 0, EvStep.ocr 1, EvStep.ocr 2,
        EvStep.detect, EvStep.grade, EvStep.store]) := by
  simp [run_evaluation, hp0, hp1, hp2, hc0, hc1, hc2]

/-- Witness for C7: a concrete full run produces exactly the canonical step
trace. -/
theorem run_evaluation_sequential_witness :
    (run_evaluation seqEffects (txt "U") (txt "S") "Moderate" [] (txt "T")).2 =
      [EvStep.save 0, EvStep.save 1, EvStep.save 2,
       EvStep.convert 0, EvStep.convert 1, EvStep.convert 2,
       EvStep.ocr 0, EvStep.ocr 1, EvStep.ocr 2,
       EvStep.detect, EvStep.grade, EvStep.store] := by
  have h := run_evaluation_sequential seqEffects (txt "U") (txt "S") "Moderate" []
    (txt "T") (txt "data/tmp.pdf") (txt "data/tmp.pdf") (txt "data/tmp.pdf")
    [] [] [] rfl rfl rfl rfl rfl rfl
  rw [h]

/-- C1 (amended): the evaluation pipeline does **not** apply the mode-based
score adjustment: `apply_evaluation_mode` is defined in
src/evaluation_mode.py but is never invoked by the evaluate branch (nor
anywhere else in the repository); on a completed run the stored and displayed
report and analytics are exactly the values returned by `grade_answers`,
unadjusted — the mode only flows into the grading prompt. -/
theorem run_evaluation_stores_unadjusted {J : Type} (E : EvalEffects J)
    (usn subject : Txt) (mode : String) (rules username : Txt)
    (path0 path1 path2 : Txt) (q_images k_images s_images : List Txt)
    (hp0 : E.saveFile 0 = some path0) (hp1 : E.saveFile 1 = some path1)
    (hp2 : E.saveFile 2 = some path2)
    (hc0 : E.convert 0 = .ok q_images) (hc1 : E.convert 1 = .ok k_images)
    (hc2 : E.convert 2 = .ok s_images) :
    (run_evaluation E usn subject mode rules username).1 =
      EvalOutcome.success
        { usn := usn, subject := subject, evaluated_by := username,
          diagram_count := detect_diagrams E.studentPdf,
          evaluation_report :=
            (grade_answers E.jsonLoads E.apiKeyOk E.gradeCall
              { question_text := extract_text_from_images E.apiKeyOk (E.ocrCall 0) q_images,
                key_text := extract_text_from_images E.apiKeyOk (E.ocrCall 1) k_images,
                student_text := extract_text_from_images E.apiKeyOk (E.ocrCall 2) s_images,
                rules := rules, mode := mode,
                diagram_count := detect_diagrams E.studentPdf }).report,
          analytics_data :=
            (grade_answers E.jsonLoads E.apiKeyOk E.gradeCall
              { question_text := extract_text_from_images E.apiKeyOk (E.ocrCall 0) q_images,
                key_text := extract_text_from_images E.apiKeyOk (E.ocrCall 1) k_images,
                student_text := extract_text_from_images E.apiKeyOk (E.ocrCall 2) s_images,
                rules := rules, mode := mode,
                diagram_count := detect_diagrams E.studentPdf }).analytics } := by
  simp [run_evaluation, hp0, hp1, hp2, hc0, hc1, hc2]

/-- C1 counterexample: a complete Lenient-mode run in which the grading model
returns an analytics object with awarded score 10 stores `some 10` —
exactly the AI-returned value — while `apply_evaluation_mode 10 100 "Lenient"`
would have adjusted the score to 15; so the claimed invocation of
`apply_evaluation_mode` on the AI score before storing does not happen. -/
theorem run_evaluation_no_adjustment_counterexample :
    (run_evaluation cexEffects (txt "1AB19CS001") (txt "Math") "Lenient" []
        (txt "teach")).1 =
      EvalOutcome.success
        { usn := txt "1AB19CS001", subject := txt "Math",
          evaluated_by := txt "teach", diagram_count := 0,
          evaluation_report := [], analytics_data := some (10 : ℚ) } ∧
    (apply_evaluation_mode 10 100 "Lenient").1 = 15 ∧
    some (10 : ℚ) ≠ some (15 : ℚ) := by
  refine ⟨by decide, ?_, by norm_num⟩
  norm_num [apply_evaluation_mode, pyround1, pyroundInt]

/-- Witness for the amended C1: instantiating the store-unadjusted theorem on
the concrete complete run and evaluating, the stored analytics are the
AI-returned score 10. -/
theorem run_evaluation_stores_unadjusted_witness :
    (run_evaluation cexEffects (txt "U") (txt "S") "Lenient" [] (txt "T")).1 =
      EvalOutcome.success
        { usn := txt "U", subject := txt "S", evaluated_by := txt "T",
          diagram_count := 0, evaluation_report := [],
          analytics_data := some (10 : ℚ) } := by
  have h := run_evaluation_stores_unadjusted cexEffects (txt "U") (txt "S") "Lenient"
    [] (txt "T") (txt "data/tmp.pdf") (txt "data/tmp.pdf") (txt "data/tmp.pdf")
    [] [] [] rfl rfl rfl rfl rfl rfl
  rw [h]
  decide
